import Mathlib

/-!
Verification of the Instascribe conversation-transcript pipeline
(`src/instascribe.py`). The Python source is shallowly embedded below:
each Python helper becomes a Lean function of the same name, optional
JSON fields become `Option` values, and the per-message loop body of
`process_single_conversation` becomes an explicit step function on a
small state record. The locale-dependent pieces delegated to the Python
runtime (`datetime.strftime` date/time rendering and the `%.1f` float
formatting of gap durations) are abstracted as function parameters of a
`Config` record, since the source only ever compares or concatenates
their abstract results.
-/

namespace Instascribe

/-- Python `a.startswith`-style check on character lists: does the second
list start with the first? -/
def listStarts : List Char → List Char → Bool
  | [], _ => true
  | _ :: _, [] => false
  | a :: xs, b :: ys => a == b && listStarts xs ys

/-- Python substring test `pat in s`, on character lists. -/
def listHasSub (pat : List Char) : List Char → Bool
  | [] => pat.isEmpty
  | c :: cs => listStarts pat (c :: cs) || listHasSub pat cs

/-- Python's `pat in s` substring containment on strings. -/
def pyIn (pat s : String) : Bool := listHasSub pat.data s.data

/-- Python `s.lower()`, character-wise (ASCII case mapping, which covers
every phrase the source compares against). -/
def pyLower (s : String) : String := String.mk (s.data.map Char.toLower)

/-- Python `s.strip()`: drop whitespace from both ends. -/
def pyStrip (s : String) : String :=
  String.mk (((s.data.dropWhile Char.isWhitespace).reverse.dropWhile Char.isWhitespace).reverse)

/-- Python `text.encode('latin1')`: each code point below 256 maps to one
byte of the same value; any larger code point raises (here: `none`). -/
def latin1Encode (s : String) : Option (List Nat) :=
  s.data.mapM (fun c => if c.toNat < 256 then some c.toNat else none)

/-- Is `b` a UTF-8 continuation byte (`0x80..0xBF`)? -/
def isCont (b : Nat) : Bool := 0x80 ≤ b && b < 0xC0

/-- Python `bytes.decode('utf8')` (strict): standard UTF-8 decoding,
rejecting stray continuation bytes, overlong forms, surrogate code
points and code points above `0x10FFFF`. -/
def utf8Decode : List Nat → Option (List Char)
  | [] => some []
  | b :: rest =>
    if b < 0x80 then
      (utf8Decode rest).map (fun cs => Char.ofNat b :: cs)
    else if b < 0xC2 then none
    else if b < 0xE0 then
      match rest with
      | b1 :: rest2 =>
        if isCont b1 then
          (utf8Decode rest2).map (fun cs => Char.ofNat ((b - 0xC0) * 0x40 + (b1 - 0x80)) :: cs)
        else none
      | [] => none
    else if b < 0xF0 then
      match rest with
      | b1 :: b2 :: rest2 =>
        let cp := (b - 0xE0) * 0x1000 + (b1 - 0x80) * 0x40 + (b2 - 0x80)
        if isCont b1 && isCont b2 && decide (0x800 ≤ cp) &&
            !(decide (0xD800 ≤ cp) && decide (cp < 0xE000)) then
          (utf8Decode rest2).map (fun cs => Char.ofNat cp :: cs)
        else none
      | _ => none
    else if b < 0xF5 then
      match rest with
      | b1 :: b2 :: b3 :: rest2 =>
        let cp := (b - 0xF0) * 0x40000 + (b1 - 0x80) * 0x1000 + (b2 - 0x80) * 0x40 + (b3 - 0x80)
        if isCont b1 && isCont b2 && isCont b3 && decide (0x10000 ≤ cp) &&
            decide (cp < 0x110000) then
          (utf8Decode rest2).map (fun cs => Char.ofNat cp :: cs)
        else none
      | _ => none
    else none

/-- The body of the `try` in `fix_encoding`:
`text.encode('latin1').decode('utf8')`, with failure as `none`. -/
def latin1Utf8Repair (t : String) : Option String :=
  (latin1Encode t).bind (fun bs => (utf8Decode bs).map String.mk)

/-- `fix_encoding(text)` (src line 22): `None` becomes `""`; otherwise the
latin1→utf8 reinterpretation is attempted and any failure falls back to
the unchanged input (the bare `except`). -/
def fix_encoding (text : Option String) : String :=
  match text with
  | none => ""
  | some t => (latin1Utf8Repair t).getD t

/-- `clean_url(url)` (src line 30): empty for falsy input, else truncate
at the first `?`. -/
def clean_url (url : String) : String :=
  if url = "" then "" else (url.splitOn "?").headD ""

/-- Python `f"{n:02d}"`: decimal rendering zero-padded to width two. -/
def pad2 (n : Nat) : String :=
  if n < 10 then "0" ++ toString n else toString n

/-- `format_duration(seconds)` (src line 35). -/
def format_duration (seconds : Nat) : String :=
  if seconds = 0 then "MISSED/CANCELLED"
  else pad2 (seconds / 60) ++ ":" ++ pad2 (seconds % 60)

/-- Python regex `\w` (ASCII range): letters, digits or underscore. -/
def wordChar (c : Char) : Bool := c.isAlphanum || c == '_'

/-- `re.sub(r'#\w+', '', text)` on a character list: a `#` followed by at
least one word character is removed together with the maximal word-character
run after it. -/
def stripTags : List Char → List Char
  | [] => []
  | c :: rest =>
    if c = '#' ∧ wordChar (rest.headD ' ') then stripTags (rest.dropWhile wordChar)
    else c :: stripTags rest
termination_by l => l.length
decreasing_by
  · simp only [List.length_cons]
    exact Nat.lt_succ_of_le (List.dropWhile_sublist _).length_le
  · simp

/-- The fixed spam-phrase list of `clean_caption` (src line 44). -/
def spam_phrases : List String :=
  ["follow @", "dm for", "credit:", "tag a", "repost", "link in bio", "subscribe"]

/-- `clean_caption(text)` (src line 41): drop `#word` tokens, drop every
line containing a spam phrase (case-insensitive), rejoin with single
spaces, strip. -/
def clean_caption (text : String) : String :=
  let text := String.mk (stripTags text.data)
  let lines := text.splitOn "\n"
  let cleaned_lines := lines.filter (fun l => !(spam_phrases.any (fun p => pyIn p (pyLower l))))
  pyStrip (String.intercalate " " cleaned_lines)

/-- One entry of a message's `reactions` list; both fields may be `null`
or absent (`r.get(...)` with no default). -/
structure Reaction where
  reaction : Option String
  actor : Option String
deriving DecidableEq

/-- A `reply_to_source` record; `none` fields stand for absent keys (the
source defaults them via `get`). -/
structure Reply where
  sender_name : Option String
  content : Option String
deriving DecidableEq

/-- A `share` payload; `none` fields stand for absent keys. A wholly
absent or empty (falsy) `share` dict is `none` at the `Message` level. -/
structure Share where
  link : Option String
  share_text : Option String
deriving DecidableEq

/-- One raw message record as consumed by `process_single_conversation`.
`Option` marks fields read with `msg.get(...)`; the boolean flags fold
Python truthiness of the corresponding key (absent ≡ falsy); `sticker`
and `audio_files` record only presence (`is not None`); `photos` records
truthiness of the photo list. -/
structure Message where
  timestamp_ms : Option Nat := none
  sender_name : Option String := none
  content : Option String := none
  is_unsent : Bool := false
  is_geoblocked_for_viewer : Bool := false
  sticker : Bool := false
  audio_files : Bool := false
  call_duration : Option Nat := none
  share : Option Share := none
  photos : Bool := false
  is_edited : Bool := false
  reply_to_source : Option Reply := none
  reactions : List Reaction := []
deriving DecidableEq

/-- `ts_ms = msg.get('timestamp_ms', 0)`, as an integer for the signed
differences taken against `last_timestamp`. -/
def tsOf (m : Message) : Int := (m.timestamp_ms.getD 0 : Nat)

/-- `raw_content = fix_encoding(msg.get('content', ""))` (src line 106). -/
def rawContent (m : Message) : String := fix_encoding (some (m.content.getD ""))

/-- `sender_raw = fix_encoding(msg.get('sender_name', 'Unknown'))` (src line 103). -/
def senderRaw (m : Message) : String := fix_encoding (some (m.sender_name.getD "Unknown"))

/-- Classifier rule 1 (src line 109): unsent flag, or the repaired content
contains the unsend notice case-insensitively. -/
def isUnsentMsg (m : Message) : Bool :=
  m.is_unsent || pyIn "unsent a message" (pyLower (rawContent m))

/-- The fixed system-event phrases of src line 113. -/
def sysPhrases : List String := ["sent an attachment.", "Liked a message", "Reacted "]

/-- The priority-ordered if/elif classification of src lines 115-120. -/
def classify (m : Message) : String :=
  if isUnsentMsg m then "[MESSAGE_UNSENT_BY_USER]"
  else if m.is_geoblocked_for_viewer then "[CONTENT_GEOBLOCKED_FOR_RECIPIENT]"
  else if m.sticker then "[SENT_A_STICKER]"
  else if m.audio_files then "[VOICE_NOTE_SENT]"
  else if sysPhrases.any (fun p => pyIn p (rawContent m)) then ""
  else rawContent m

/-- Call-log override of src lines 122-123: a present `call_duration`
(including zero) replaces the classified content. -/
def contentAfterCall (m : Message) : String :=
  match m.call_duration with
  | some d => "[CALL_LOG: " ++ format_duration d ++ "]"
  | none => classify m

/-- Share-label selection of src lines 131-135. -/
def shareLabel (link : String) : String :=
  if pyIn "/stories/" link then "STORY_CONTEXT"
  else if pyIn "giphy.com" link then
    let slug :=
      if pyIn "/" link then
        ((((link.splitOn "/").getLastD "").replace "-" " ").splitOn " ").headD ""
      else "visual"
    "GIF_SENT (Theme: " ++ slug ++ ")"
  else "SHARED_LINK"

/-- The Optimized-density caption digest of src lines 141-142: the cleaned
caption, truncated to 127 characters plus `"..."` when longer than 130. -/
def optimizedDigest (caption : String) : String :=
  let short_cap := clean_caption caption
  if short_cap.length > 130 then String.mk (short_cap.data.take 127) ++ "..." else short_cap

/-- Metadata strategies of src lines 126-148: given the density choice,
the current content and the (possibly absent) share payload, return the
updated content and the share block. -/
def shareRender (meta_choice : String) (content : String) (share : Option Share) :
    String × String :=
  match share with
  | none => (content, "")
  | some sd =>
    let link := clean_url (sd.link.getD "")
    let caption := fix_encoding (some (sd.share_text.getD ""))
    let s_label := shareLabel link
    if meta_choice = "1" then
      let share_block := "\n    └─ [" ++ s_label ++ "]: " ++ link
      let share_block :=
        if caption ≠ "" then share_block ++ "\n    └─ [CAPTION]: " ++ caption else share_block
      (content, share_block)
    else if meta_choice = "2" then
      let short_cap := optimizedDigest caption
      let share_block := "\n    └─ [" ++ s_label ++ "]: " ++ link
      let share_block :=
        if short_cap ≠ "" then share_block ++ "\n    └─ [CAPTION_DIGEST]: " ++ short_cap
        else share_block
      (content, share_block)
    else if meta_choice = "3" then
      (content, "\n    └─ [" ++ s_label ++ "]: " ++ link)
    else
      (pyStrip ("[" ++ s_label ++ "] " ++ content), "")

/-- Content and share block after the full chain of src lines 109-151:
classification, call override, metadata strategy, photo prefix, edited
suffix. -/
def renderContentBlock (meta_choice : String) (m : Message) : String × String :=
  let c0 := contentAfterCall m
  let cb := shareRender meta_choice c0 m.share
  let c1 := if m.photos then pyStrip ("[MEDIA: Photo] " ++ cb.1) else cb.1
  let c2 := if m.is_edited then c1 ++ " (EDITED)" else c1
  (c2, cb.2)

/-- Reply-context prefix of src lines 153-158. -/
def replyContext (m : Message) : String :=
  match m.reply_to_source with
  | none => ""
  | some rd =>
    let r_sender := fix_encoding (some (rd.sender_name.getD "Unknown"))
    let r_content := fix_encoding (some (rd.content.getD "[Media]"))
    "(Reply to " ++ r_sender ++ ": \"" ++ r_content ++ "\") ↳ "

/-- Reaction suffix of src lines 160-161. -/
def reactionStr (m : Message) : String :=
  match m.reactions with
  | [] => ""
  | rs =>
    " [Reactions: " ++
      String.intercalate ", "
        (rs.map (fun r => fix_encoding r.reaction ++ " by " ++ fix_encoding r.actor)) ++ "]"

/-- Run-wide configuration plus the runtime-rendering functions the source
delegates: `dateOf`/`timeOf` are `datetime.fromtimestamp(ts/1000).strftime`
with the date and time formats, `fmtGap` is the `f"{gap:.1f}"` rendering of
the gap in hours computed from the millisecond difference. -/
structure Config where
  dateOf : Int → String
  timeOf : Int → String
  fmtGap : Int → String
  user_name : String
  self_aware : String
  meta_choice : String

/-- `GAP_THRESHOLD_MS = 6 * 3600 * 1000` (src line 87). -/
def GAP_THRESHOLD_MS : Int := 6 * 3600 * 1000

/-- `GROUPING_THRESHOLD_MS = 5 * 60 * 1000` (src line 88). -/
def GROUPING_THRESHOLD_MS : Int := 5 * 60 * 1000

/-- The loop-carried state of src line 86 (`cleaned_output`, `last_date`,
`last_sender`, `last_timestamp`). -/
structure TState where
  out : List String := []
  last_date : Option String := none
  last_sender : Option String := none
  last_timestamp : Int := 0
deriving DecidableEq

/-- Temporal-marker lines of src lines 96-101: a date-boundary marker when
the rendered date changed (this includes the first message), otherwise a
gap marker when the elapsed time strictly exceeds the 6-hour threshold. -/
def markerLines (cfg : Config) (st : TState) (m : Message) : List String :=
  if some (cfg.dateOf (tsOf m)) ≠ st.last_date then
    ["\n=== DATE: " ++ cfg.dateOf (tsOf m) ++ " ==="]
  else if tsOf m - st.last_timestamp > GAP_THRESHOLD_MS then
    ["\n--- TIME GAP: " ++ cfg.fmtGap (tsOf m - st.last_timestamp) ++ " hours ---"]
  else []

/-- `sender_display` of src line 104. -/
def senderDisplay (cfg : Config) (m : Message) : String :=
  if cfg.self_aware = "y" then
    "[" ++ (if pyLower (senderRaw m) = pyLower cfg.user_name then "YOU" else "CONTACT") ++
      "] " ++ senderRaw m
  else senderRaw m

/-- Grouping decision of src lines 164-167: continuation arrow when the
sender matches the previous emitted sender and the elapsed time is
strictly under the 5-minute threshold, else a full header. -/
def msgHeader (cfg : Config) (st : TState) (m : Message) : String :=
  if st.last_sender = some (senderRaw m) ∧
      tsOf m - st.last_timestamp < GROUPING_THRESHOLD_MS then "  ↳ "
  else "\n[" ++ cfg.timeOf (tsOf m) ++ "] " ++ senderDisplay cfg m ++ ": "

/-- One iteration of the message loop of src lines 90-172: temporal
markers, classification and rendering, then conditional emission (a
message with empty content and empty share block appends nothing and
leaves `last_sender`/`last_timestamp` untouched). -/
def stepMsg (cfg : Config) (st : TState) (m : Message) : TState :=
  let out1 := st.out ++ markerLines cfg st m
  let last_date1 :=
    if some (cfg.dateOf (tsOf m)) ≠ st.last_date then some (cfg.dateOf (tsOf m))
    else st.last_date
  let cb := renderContentBlock cfg.meta_choice m
  if cb.1 ≠ "" ∨ cb.2 ≠ "" then
    { out := out1 ++ [msgHeader cfg st m ++ replyContext m ++ cb.1 ++ reactionStr m ++ cb.2],
      last_date := last_date1,
      last_sender := some (senderRaw m),
      last_timestamp := tsOf m }
  else
    { out := out1, last_date := last_date1,
      last_sender := st.last_sender, last_timestamp := st.last_timestamp }

/-- The whole message loop, folded from the initial state of src line 86. -/
def processMessages (cfg : Config) (msgs : List Message) : TState :=
  msgs.foldl (stepMsg cfg) {}

/-- One fragment file (`message_N.json`): its repaired title source and
its message list (`'messages' in data` absent ≡ empty). -/
structure Fragment where
  title : Option String
  messages : List Message

/-- Fragment merging of src lines 75-81: keep fragments whose repaired
title equals the target thread title, concatenate their messages in
fragment order. -/
def mergeFragments (target : String) (frags : List Fragment) : List Message :=
  (frags.filter (fun f => fix_encoding f.title = target)).flatMap (fun f => f.messages)

/-- The sort key of src line 83: `x.get('timestamp_ms', 0)`. -/
def keyOf (m : Message) : Nat := m.timestamp_ms.getD 0

/-- The Boolean key comparison induced by src line 83's `key=` function. -/
def msgLE (a b : Message) : Bool := keyOf a ≤ keyOf b

/-- `all_messages.sort(key=...)` (src line 83): a stable sort by the
timestamp key (Python `list.sort` is stable; modelled by `mergeSort`,
which is stable). -/
def sortMessages (msgs : List Message) : List Message :=
  msgs.mergeSort msgLE

/-- The `meta_labels` dictionary of src line 219 combined with the
`.get(meta_choice, 'Optimized')` lookup of src line 184. -/
def metaLabel (meta_choice : String) : String :=
  if meta_choice = "1" then "Full"
  else if meta_choice = "2" then "Optimized"
  else if meta_choice = "3" then "Minimal"
  else if meta_choice = "4" then "None"
  else "Optimized"

/-- The `METADATA_STRATEGY` header line of src line 184. -/
def metadataStrategyLine (meta_choice : String) : String :=
  "METADATA_STRATEGY: " ++ metaLabel meta_choice

/-- A concrete configuration for evaluating the state machine on inputs:
abstract rendering functions are instantiated with simple total functions. -/
def cfg0 : Config where
  dateOf := fun t => toString t
  timeOf := fun _ => "12:00"
  fmtGap := fun _ => "8.0"
  user_name := ""
  self_aware := "n"
  meta_choice := "2"

/-- A concrete unsent message also carrying geo-block, sticker, voice,
share and reaction fields, for evaluating rule-1 priority. -/
def mUnsentFull : Message where
  is_unsent := true
  is_geoblocked_for_viewer := true
  sticker := true
  audio_files := true
  share := some { link := some "https://x.com/a?q=1", share_text := some "cap" }
  reactions := [{ reaction := some "❤", actor := some "Bob" }]

/-- A concrete message whose content is a system notice, carrying a reply
reference and a reaction, for evaluating suppression. -/
def mLikedReply : Message where
  content := some "Liked a message"
  reply_to_source := some { sender_name := some "Ann", content := some "yo" }
  reactions := [{ reaction := some "❤", actor := some "Bob" }]

/-- A concrete mid-conversation state whose previous sender is Bob. -/
def stBob : TState where
  out := []
  last_date := some "0"
  last_sender := some "Bob"
  last_timestamp := 0

/-- A concrete mid-conversation state whose previous sender is Alice and
whose previous timestamp is 1000 ms. -/
def stAlice : TState where
  out := ["x"]
  last_date := some "1000"
  last_sender := some "Alice"
  last_timestamp := 1000

/-- A concrete message carrying only a timestamp. -/
def mT1000 : Message where
  timestamp_ms := some 1000

/- ===================== Theorems ===================== -/

-- A string whose right append component is nonempty is nonempty.
theorem append_ne_empty_right (s t : String) (ht : t ≠ "") : s ++ t ≠ "" := by
  intro h
  have h2 := congrArg String.length h
  rw [String.length_append] at h2
  have h3 : t.length = 0 := by
    have h0 : ("" : String).length = 0 := rfl
    omega
  exact ht (String.ext (List.eq_nil_of_length_eq_zero h3))

-- The full-header rendering of src line 167 is never the continuation arrow.
theorem fullHeader_ne_arrow (a b c d : String) : ("\n[" ++ a ++ b ++ c ++ d) ≠ "  ↳ " := by
  intro h
  have h2 := congrArg String.data h
  simp only [String.data_append, List.append_assoc] at h2
  have h3 : '\n' :: '[' :: (a.data ++ (b.data ++ (c.data ++ d.data))) = [' ', ' ', '↳', ' '] := h2
  injection h3 with h4 _
  exact absurd h4 (by decide)

-- Suppression (src line 169): a message with empty content and empty share
-- block contributes only its temporal-marker lines and keeps the grouping
-- state; only `last_date` may move.
theorem stepMsg_suppressed (cfg : Config) (st : TState) (m : Message)
    (h1 : (renderContentBlock cfg.meta_choice m).1 = "")
    (h2 : (renderContentBlock cfg.meta_choice m).2 = "") :
    stepMsg cfg st m =
      { out := st.out ++ markerLines cfg st m,
        last_date :=
          if some (cfg.dateOf (tsOf m)) ≠ st.last_date then some (cfg.dateOf (tsOf m))
          else st.last_date,
        last_sender := st.last_sender,
        last_timestamp := st.last_timestamp } := by
  simp [stepMsg, h1, h2]

-- `msgLE` is transitive.
theorem msgLE_trans : ∀ a b c : Message,
    msgLE a b = true → msgLE b c = true → msgLE a c = true := by
  intro a b c h1 h2
  simp only [msgLE, decide_eq_true_eq] at h1 h2 ⊢
  omega

-- `msgLE` is total.
theorem msgLE_total : ∀ a b : Message, (msgLE a b || msgLE b a) = true := by
  intro a b
  simp only [msgLE, Bool.or_eq_true, decide_eq_true_eq]
  omega

-- The sorted sequence is non-decreasing in the timestamp key.
theorem sortMessages_pairwise (l : List Message) :
    (sortMessages l).Pairwise (fun a b => keyOf a ≤ keyOf b) := by
  have h := List.sorted_mergeSort msgLE_trans msgLE_total l
  exact h.imp (fun hab => by simpa [msgLE] using hab)

-- Stability of the sort: the subsequence of messages at any fixed key is
-- unchanged.
theorem sortMessages_stable (l : List Message) (k : Nat) :
    (sortMessages l).filter (fun m => keyOf m == k) =
      l.filter (fun m => keyOf m == k) := by
  have hmem : ∀ a ∈ l.filter (fun m => keyOf m == k), keyOf a = k := by
    intro a ha
    have h := (List.mem_filter.1 ha).2
    simpa using h
  have hpw : (l.filter (fun m => keyOf m == k)).Pairwise (fun a b => msgLE a b = true) :=
    List.pairwise_of_forall_mem_list (fun a ha b hb => by
      simp [msgLE, hmem a ha, hmem b hb])
  have hsub := List.sublist_mergeSort msgLE_trans msgLE_total hpw (List.filter_sublist l)
  have h0 : (l.filter (fun m => keyOf m == k)).filter (fun m => keyOf m == k) =
      l.filter (fun m => keyOf m == k) :=
    List.filter_eq_self.2 (fun a ha => (List.mem_filter.1 ha).2)
  have hsub2 : (l.filter (fun m => keyOf m == k)).Sublist
      ((sortMessages l).filter (fun m => keyOf m == k)) := by
    have h4 := hsub.filter (fun m => keyOf m == k)
    rw [h0] at h4
    exact h4
  have hperm : ((sortMessages l).filter (fun m => keyOf m == k)).Perm
      (l.filter (fun m => keyOf m == k)) :=
    (List.mergeSort_perm l msgLE).filter _
  exact (hsub2.eq_of_length hperm.length_eq.symm).symm

/-- C5: a present call-duration field (including zero) overrides the
content with a CALL_LOG marker; duration 0 renders as MISSED/CANCELLED and
never as `00:00`; a non-zero duration renders as zero-padded minutes and
seconds `MM:SS` (the seconds component always two digits). -/
theorem call_duration_overrides_and_zero_is_missed :
    (∀ (m : Message) (d : Nat), m.call_duration = some d →
        contentAfterCall m = "[CALL_LOG: " ++ format_duration d ++ "]") ∧
    format_duration 0 = "MISSED/CANCELLED" ∧
    format_duration 0 ≠ "00:00" ∧
    (∀ d : Nat, d ≠ 0 →
        format_duration d = pad2 (d / 60) ++ ":" ++ pad2 (d % 60) ∧
        (pad2 (d % 60)).length = 2) := by
  refine ⟨?_, rfl, by decide, ?_⟩
  · intro m d h
    simp [contentAfterCall, h]
  · intro d hd
    have hlen : ∀ n, n < 60 → (pad2 n).length = 2 := by decide
    exact ⟨by simp [format_duration, hd], hlen _ (Nat.mod_lt _ (by decide))⟩

/-- Witness for C5 at concrete durations 0 and 61. -/
theorem call_duration_witness :
    contentAfterCall { call_duration := some 0 } = "[CALL_LOG: " ++ format_duration 0 ++ "]" ∧
    format_duration 61 = pad2 (61 / 60) ++ ":" ++ pad2 (61 % 60) ∧
    (pad2 (61 % 60)).length = 2 :=
  ⟨call_duration_overrides_and_zero_is_missed.1 _ 0 rfl,
   call_duration_overrides_and_zero_is_missed.2.2.2 61 (by decide)⟩

/-- C6: the Optimized-density caption digest, including the appended
ellipsis, never exceeds 130 characters. -/
theorem optimized_digest_bounded (caption : String) :
    (optimizedDigest caption).length ≤ 130 := by
  unfold optimizedDigest
  by_cases h : (clean_caption caption).length > 130
  · rw [if_pos h, String.length_append, String.length_mk]
    have h1 : ((clean_caption caption).data.take 127).length ≤ 127 := by
      rw [List.length_take]
      omega
    have h2 : ("..." : String).length = 3 := rfl
    omega
  · rw [if_neg h]
    omega

/-- C7: `fix_encoding` is total (the bare `except` swallows every
failure): an absent input yields the empty string, and whenever the
latin1→utf8 reinterpretation fails the original text is returned
unchanged. -/
theorem fix_encoding_absent_and_fallback :
    fix_encoding none = "" ∧
    ∀ t : String, latin1Utf8Repair t = none → fix_encoding (some t) = t := by
  refine ⟨rfl, ?_⟩
  intro t h
  simp [fix_encoding, h]

/-- Witness for C7: the lone byte of `"é"` under latin1 is not valid UTF-8,
so the repair fails and the input comes back unchanged. -/
theorem fix_encoding_witness :
    fix_encoding none = "" ∧ latin1Utf8Repair "é" = none ∧ fix_encoding (some "é") = "é" :=
  ⟨fix_encoding_absent_and_fallback.1, by decide,
   fix_encoding_absent_and_fallback.2 "é" (by decide)⟩

/-- C8: merging two fragments of the same conversation and sorting yields
a sequence non-decreasing in the timestamp key; the sort is stable (the
subsequence at each fixed key is preserved); a message without a
timestamp field sorts under key zero. -/
theorem merge_sort_monotone_stable (f1 f2 : Fragment) (t : String) :
    (sortMessages (mergeFragments t [f1, f2])).Pairwise (fun a b => keyOf a ≤ keyOf b) ∧
    (∀ k, (sortMessages (mergeFragments t [f1, f2])).filter (fun m => keyOf m == k) =
        (mergeFragments t [f1, f2]).filter (fun m => keyOf m == k)) ∧
    (∀ m : Message, m.timestamp_ms = none → keyOf m = 0) :=
  ⟨sortMessages_pairwise _, fun k => sortMessages_stable _ k,
   fun _ h => by simp [keyOf, h]⟩

/-- Witness for C8 on two concrete overlapping fragments. -/
theorem merge_sort_witness :
    (sortMessages (mergeFragments "chat"
        [{ title := some "chat", messages := [{ timestamp_ms := some 5 }, { timestamp_ms := some 1 }] },
         { title := some "chat", messages := [{ timestamp_ms := some 5 }] }])).Pairwise
      (fun a b => keyOf a ≤ keyOf b) ∧
    keyOf ({} : Message) = 0 :=
  ⟨(merge_sort_monotone_stable _ _ "chat").1,
   (merge_sort_monotone_stable
      { title := some "chat", messages := [] }
      { title := some "chat", messages := [] } "chat").2.2 {} rfl⟩

-- Metadata densities Full/Optimized/Minimal, or an absent share payload,
-- leave the content string unchanged (only the None-style else branch of
-- src line 148 rewrites it).
theorem shareRender_preserves (mc : String) (c : String) (sh : Option Share)
    (h : sh = none ∨ mc = "1" ∨ mc = "2" ∨ mc = "3") :
    (shareRender mc c sh).1 = c := by
  rcases h with h | h | h | h
  · simp [shareRender, h]
  · cases sh with
    | none => simp [shareRender]
    | some sd => simp [shareRender, h]
  · cases sh with
    | none => simp [shareRender]
    | some sd => simp [shareRender, h]
  · cases sh with
    | none => simp [shareRender]
    | some sd => simp [shareRender, h]

/-- C1 counterexample: a message carrying both the unsent flag and a
call-duration field renders the CALL_LOG marker, not the UNSENT marker
(the call override of src line 122 runs after classification), so rule 1
does not win regardless of all other field values. -/
theorem unsent_not_absolute_counterexample :
    isUnsentMsg { is_unsent := true, call_duration := some 0 } = true ∧
    (renderContentBlock "2" { is_unsent := true, call_duration := some 0 }).1 =
      "[CALL_LOG: MISSED/CANCELLED]" ∧
    (renderContentBlock "2" { is_unsent := true, call_duration := some 0 }).1 ≠
      "[MESSAGE_UNSENT_BY_USER]" := by
  decide

/-- C1 (amended): for every message to which classifier rule 1 applies and
that carries no call-duration field, no photo attachment, no edited flag,
and no share payload under the None-density fallback, the rendered content
is exactly the UNSENT marker, regardless of the geo-block, sticker and
voice fields. -/
theorem unsent_marker_priority (mc : String) (m : Message)
    (h1 : isUnsentMsg m = true) (h2 : m.call_duration = none)
    (h3 : m.photos = false) (h4 : m.is_edited = false)
    (h5 : m.share = none ∨ mc = "1" ∨ mc = "2" ∨ mc = "3") :
    (renderContentBlock mc m).1 = "[MESSAGE_UNSENT_BY_USER]" := by
  have hc : contentAfterCall m = "[MESSAGE_UNSENT_BY_USER]" := by
    simp [contentAfterCall, h2, classify, h1]
  have hp := shareRender_preserves mc (contentAfterCall m) m.share h5
  simp only [renderContentBlock, h3, h4, Bool.false_eq_true, if_false]
  rw [hp, hc]

/-- Witness for C1 (amended): an unsent message that is also geo-blocked,
a sticker, a voice note, shared content under Optimized density and
reacted to still renders the UNSENT marker alone. -/
theorem unsent_marker_witness :
    (renderContentBlock "2" mUnsentFull).1 = "[MESSAGE_UNSENT_BY_USER]" :=
  unsent_marker_priority "2" mUnsentFull (by decide) rfl rfl rfl
    (Or.inr (Or.inr (Or.inl rfl)))

/-- C2 counterexample: the very first message of a conversation, with empty
content, no share payload and no reactions, still appends a transcript
line — the date-boundary marker of src line 97 — while being suppressed,
so processing it does not append zero lines. -/
theorem suppressed_message_emits_marker_counterexample :
    (renderContentBlock cfg0.meta_choice ({} : Message)).1 = "" ∧
    (renderContentBlock cfg0.meta_choice ({} : Message)).2 = "" ∧
    ({} : Message).reactions = [] ∧
    (stepMsg cfg0 {} {}).out = ["\n=== DATE: 0 ==="] ∧
    (stepMsg cfg0 {} {}).out ≠ [] := by
  decide

/-- C2 (amended): a message whose final content and metadata block are both
empty appends no message line — only its temporal-marker lines, if any —
and leaves the previous-sender and previous-timestamp grouping state
unchanged, so it cannot anchor grouping for the following message. -/
theorem suppressed_message_no_line_no_grouping (cfg : Config) (st : TState) (m : Message)
    (h1 : (renderContentBlock cfg.meta_choice m).1 = "")
    (h2 : (renderContentBlock cfg.meta_choice m).2 = "") :
    (stepMsg cfg st m).out = st.out ++ markerLines cfg st m ∧
    (stepMsg cfg st m).last_sender = st.last_sender ∧
    (stepMsg cfg st m).last_timestamp = st.last_timestamp := by
  rw [stepMsg_suppressed cfg st m h1 h2]
  exact ⟨rfl, rfl, rfl⟩

/-- Witness for C2 (amended) on a concrete empty message mid-conversation:
nothing is appended and the grouping state is kept. -/
theorem suppressed_message_witness :
    (stepMsg cfg0 stAlice mT1000).out = ["x"] ++ markerLines cfg0 stAlice mT1000 ∧
    (stepMsg cfg0 stAlice mT1000).last_sender = some "Alice" ∧
    (stepMsg cfg0 stAlice mT1000).last_timestamp = 1000 := by
  have h := suppressed_message_no_line_no_grouping cfg0 stAlice mT1000 (by decide) (by decide)
  exact ⟨h.1.trans rfl, h.2.1.trans rfl, h.2.2.trans rfl⟩

/-- C3: with the same raw sender as the previous emitted message, the
rendered header is the continuation arrow exactly when the elapsed time
since that message is strictly below the 5-minute grouping threshold. -/
theorem grouping_strictly_under_five_minutes (cfg : Config) (st : TState) (m : Message)
    (hs : st.last_sender = some (senderRaw m)) :
    msgHeader cfg st m = "  ↳ " ↔
      tsOf m - st.last_timestamp < GROUPING_THRESHOLD_MS := by
  unfold msgHeader
  by_cases hc : tsOf m - st.last_timestamp < GROUPING_THRESHOLD_MS
  · simp [hs, hc]
  · have hne := fullHeader_ne_arrow (cfg.timeOf (tsOf m)) "] " (senderDisplay cfg m) ": "
    simp [hs, hc, hne]

/-- Witness for C3 at the boundary: 299,999 ms groups, 300,000 ms does
not. -/
theorem grouping_boundary_witness :
    msgHeader cfg0 { last_sender := some "Alice", last_timestamp := 0 }
      { sender_name := some "Alice", timestamp_ms := some 299999 } = "  ↳ " ∧
    msgHeader cfg0 { last_sender := some "Alice", last_timestamp := 0 }
      { sender_name := some "Alice", timestamp_ms := some 300000 } ≠ "  ↳ " :=
  ⟨(grouping_strictly_under_five_minutes cfg0 _ _ (by decide)).mpr (by decide),
   fun h => absurd ((grouping_strictly_under_five_minutes cfg0 _ _ (by decide)).mp h)
     (by decide)⟩

/-- C4: date-boundary and time-gap markers are mutually exclusive per
message: a changed rendered date (including the first message) emits
exactly the date marker whatever the elapsed time, while an unchanged
date emits the gap marker exactly when the elapsed time strictly exceeds
the 6-hour threshold, and nothing otherwise. -/
theorem date_marker_suppresses_gap_marker (cfg : Config) (st : TState) (m : Message) :
    (some (cfg.dateOf (tsOf m)) ≠ st.last_date →
      markerLines cfg st m = ["\n=== DATE: " ++ cfg.dateOf (tsOf m) ++ " ==="]) ∧
    (some (cfg.dateOf (tsOf m)) = st.last_date →
      (tsOf m - st.last_timestamp > GAP_THRESHOLD_MS →
        markerLines cfg st m =
          ["\n--- TIME GAP: " ++ cfg.fmtGap (tsOf m - st.last_timestamp) ++ " hours ---"]) ∧
      (¬ tsOf m - st.last_timestamp > GAP_THRESHOLD_MS → markerLines cfg st m = [])) := by
  refine ⟨fun h => ?_, fun h => ⟨fun hg => ?_, fun hg => ?_⟩⟩
  · simp [markerLines, h]
  · simp [markerLines, h, hg]
  · simp [markerLines, h, hg]

/-- Witness for C4: a message on a new rendered date after an 8-hour gap
emits only the date marker; the same 8-hour gap within one rendered date
emits only the gap marker. -/
theorem date_gap_witness :
    markerLines cfg0 { last_date := some "D", last_timestamp := 0 }
      { timestamp_ms := some 28800000 } = ["\n=== DATE: 28800000 ==="] ∧
    markerLines cfg0 { last_date := some "28800000", last_timestamp := 0 }
      { timestamp_ms := some 28800000 } = ["\n--- TIME GAP: 8.0 hours ---"] :=
  ⟨(date_marker_suppresses_gap_marker cfg0 _ _).1 (by decide),
   ((date_marker_suppresses_gap_marker cfg0
      { last_date := some "28800000", last_timestamp := 0 }
      { timestamp_ms := some 28800000 }).2 (by decide)).1 (by decide)⟩

/-- C9: a message whose classified content and metadata block are both
empty is suppressed even when it carries reactions and a reply reference:
its (nonempty) reaction suffix and reply-context prefix are dropped with
it — only marker lines are appended and the grouping state is kept. -/
theorem suppressed_reactions_reply_dropped (cfg : Config) (st : TState) (m : Message)
    (hr : m.reactions ≠ []) (hq : m.reply_to_source ≠ none)
    (h1 : (renderContentBlock cfg.meta_choice m).1 = "")
    (h2 : (renderContentBlock cfg.meta_choice m).2 = "") :
    reactionStr m ≠ "" ∧ replyContext m ≠ "" ∧
    (stepMsg cfg st m).out = st.out ++ markerLines cfg st m ∧
    (stepMsg cfg st m).last_sender = st.last_sender := by
  refine ⟨?_, ?_, ?_, ?_⟩
  · cases hrx : m.reactions with
    | nil => exact absurd hrx hr
    | cons r rs =>
      simp only [reactionStr, hrx]
      exact append_ne_empty_right _ "]" (by decide)
  · cases hqx : m.reply_to_source with
    | none => exact absurd hqx hq
    | some rd =>
      simp only [replyContext, hqx]
      exact append_ne_empty_right _ "\") ↳ " (by decide)
  · rw [stepMsg_suppressed cfg st m h1 h2]
  · rw [stepMsg_suppressed cfg st m h1 h2]

/-- Witness for C9: a reacted-to reply whose content is the system notice
`Liked a message` is wholly suppressed. -/
theorem suppressed_reactions_reply_witness :
    reactionStr mLikedReply ≠ "" ∧
    (stepMsg cfg0 stBob mLikedReply).last_sender = some "Bob" := by
  refine ⟨?_, ?_⟩
  · exact (suppressed_reactions_reply_dropped cfg0 stBob mLikedReply (by decide) (by decide)
      (by decide) (by decide)).1
  · exact ((suppressed_reactions_reply_dropped cfg0 stBob mLikedReply (by decide) (by decide)
      (by decide) (by decide)).2.2.2).trans rfl

/-- C10: every metadata-density choice outside 1–4 renders a share payload
with the None-density fallback (bracketed label prefixed to the content,
empty metadata block) while the transcript header still reports the
strategy as Optimized. -/
theorem unknown_density_fallback_vs_header (mc : String)
    (h1 : mc ≠ "1") (h2 : mc ≠ "2") (h3 : mc ≠ "3") (h4 : mc ≠ "4") :
    (∀ (c : String) (sd : Share),
        shareRender mc c (some sd) = shareRender "4" c (some sd) ∧
        (shareRender mc c (some sd)).2 = "") ∧
    metadataStrategyLine mc = "METADATA_STRATEGY: Optimized" := by
  constructor
  · intro c sd
    constructor
    · simp [shareRender, h1, h2, h3]
    · simp [shareRender, h1, h2, h3]
  · simp [metadataStrategyLine, metaLabel, h1, h2, h3, h4]

/-- Witness for C10 at the unrecognized choice `"0"`. -/
theorem unknown_density_witness :
    shareRender "0" "hi" (some { link := some "https://x.com/a?b=1", share_text := some "c" }) =
      shareRender "4" "hi" (some { link := some "https://x.com/a?b=1", share_text := some "c" }) ∧
    metadataStrategyLine "0" = "METADATA_STRATEGY: Optimized" :=
  ⟨((unknown_density_fallback_vs_header "0" (by decide) (by decide) (by decide)
      (by decide)).1 "hi" _).1,
   (unknown_density_fallback_vs_header "0" (by decide) (by decide) (by decide)
      (by decide)).2⟩

end Instascribe
